import Mathlib

/-!
Verification of the `date-with-timezone-to-unix` library (src/index.ts,
src/types.ts).  The TypeScript source is shallowly embedded: JS numbers that
the library treats as integral are modelled as `Int`, epoch instants as `Int`
milliseconds, fallible functions as `Except String _` carrying the thrown
message, and the JavaScript `Date` / `Intl.DateTimeFormat` host capabilities
as explicit executable models of the ECMAScript behaviour the code relies on.
-/

namespace UnixTimeConverter

/-- Proleptic-Gregorian leap-year test (as used by ECMAScript calendars). -/
def isLeap (y : Int) : Bool :=
  y % 4 == 0 && (y % 100 != 0 || y % 400 == 0)

/-- Number of days in month `m` (1..12) of year `y`. -/
def daysInMonth (y m : Int) : Int :=
  if m == 1 then 31
  else if m == 2 then (if isLeap y then 29 else 28)
  else if m == 3 then 31
  else if m == 4 then 30
  else if m == 5 then 31
  else if m == 6 then 30
  else if m == 7 then 31
  else if m == 8 then 31
  else if m == 9 then 30
  else if m == 10 then 31
  else if m == 11 then 30
  else 31

/-- Days since 1970-01-01 of the civil date `y-m-d`
(Howard Hinnant's `days_from_civil`, the standard algorithm for the
proleptic-Gregorian epoch-day computation performed by JS `Date`). -/
def daysFromCivil (y m d : Int) : Int :=
  let y2 := if m ≤ 2 then y - 1 else y
  let era := y2.fdiv 400
  let yoe := y2 - era * 400
  let mp := if m > 2 then m - 3 else m + 9
  let doy := (153 * mp + 2).fdiv 5 + d - 1
  let doe := yoe * 365 + yoe.fdiv 4 - yoe.fdiv 100 + doy
  era * 146097 + doe - 719468

/-- Inverse of `daysFromCivil`: civil `(y, m, d)` of an epoch-day count
(Hinnant's `civil_from_days`). -/
def civilFromDays (z0 : Int) : Int × Int × Int :=
  let z := z0 + 719468
  let era := z.fdiv 146097
  let doe := z - era * 146097
  let yoe := (doe - doe.fdiv 1460 + doe.fdiv 36524 - doe.fdiv 146096).fdiv 365
  let y := yoe + era * 400
  let doy := doe - (365 * yoe + yoe.fdiv 4 - yoe.fdiv 100)
  let mp := (5 * doy + 2).fdiv 153
  let d := doy - (153 * mp + 2).fdiv 5 + 1
  let m := if mp < 10 then mp + 3 else mp - 9
  (if m ≤ 2 then y + 1 else y, m, d)

/-- Epoch seconds of the UTC civil reading `y-m-d h:mi:s`. -/
def epochSeconds (y m d h mi s : Int) : Int :=
  daysFromCivil y m d * 86400 + h * 3600 + mi * 60 + s

/-- `String(n).padStart(2, '0')` for an integral JS number `n`
(src/index.ts line 96). -/
def padTwo (n : Int) : String :=
  if 0 ≤ n ∧ n < 10 then "0" ++ toString n else toString n

/-- The ISO-8601 string composed by `handleUtcOffset`
(src/index.ts line 96): year unpadded, other fields padded to two digits,
followed by the designator (`'Z'` when the designator is `"Z"`). -/
def composeIso (y m d h mi s : Int) (tz : String) : String :=
  toString y ++ "-" ++ padTwo m ++ "-" ++ padTwo d ++ "T" ++ padTwo h ++ ":"
    ++ padTwo mi ++ ":" ++ padTwo s ++ (if tz == "Z" then "Z" else tz)

/-- The regex test `/^[+-]\d{2}:\d{2}$/.test(timezone)` of
src/index.ts line 73: sign, two ASCII digits, a colon, two ASCII digits. -/
def isOffsetShape (tz : String) : Bool :=
  match tz.data with
  | [c0, c1, c2, c3, c4, c5] =>
      (c0 == '+' || c0 == '-') && c1.isDigit && c2.isDigit && c3 == ':'
        && c4.isDigit && c5.isDigit
  | _ => false

/-- The dispatcher's classification test at src/index.ts line 73:
`timezone === "Z" || /^[+-]\d{2}:\d{2}$/.test(timezone)`. -/
def isUtcOffsetSyntax (tz : String) : Bool :=
  tz == "Z" || isOffsetShape tz

/-- Model of how the ECMAScript Date-Time-String-Format parser reads the
time-zone designator of the composed ISO string: `"Z"` means offset 0; a
`±HH:MM` designator is accepted only with `HH ≤ 23` and `MM ≤ 59` (otherwise
the whole string yields an invalid date).  Returns the offset in
milliseconds east of UTC. -/
def parseOffset (tz : String) : Option Int :=
  if tz == "Z" then some 0 else
  match tz.data with
  | [c0, c1, c2, c3, c4, c5] =>
      if ((c0 == '+' || c0 == '-') && c1.isDigit && c2.isDigit && c3 == ':'
          && c4.isDigit && c5.isDigit) then
        let hh : Int := (c1.toNat - 48 : Nat) * 10 + ((c2.toNat - 48 : Nat) : Int)
        let mm : Int := (c4.toNat - 48 : Nat) * 10 + ((c5.toNat - 48 : Nat) : Int)
        if hh ≤ 23 ∧ mm ≤ 59 then
          some (if c0 == '+' then (hh * 60 + mm) * 60000 else -((hh * 60 + mm) * 60000))
        else none
      else none
  | _ => none

/-- Model of `new Date(isoString).getTime()` for the string composed at
src/index.ts line 96, as a function of the components it was composed from.
The ECMAScript ISO parser accepts the string exactly when the year rendered
into exactly four digits (the template does not pad the year), the civil
fields form a real calendar date, and the designator carries a parsable
offset; the time value is then the UTC reading minus the offset. -/
def jsDateFromIso (y m d h mi s : Int) (tz : String) : Option Int :=
  if 1000 ≤ y ∧ y ≤ 9999 ∧ 1 ≤ m ∧ m ≤ 12 ∧ 1 ≤ d ∧ d ≤ daysInMonth y m
      ∧ 0 ≤ h ∧ h ≤ 23 ∧ 0 ≤ mi ∧ mi ≤ 59 ∧ 0 ≤ s ∧ s ≤ 59 then
    (parseOffset tz).map (fun off => epochSeconds y m d h mi s * 1000 - off)
  else none

/-- `handleUtcOffset` (src/index.ts lines 85-110): compose the ISO string,
parse it with `new Date`, throw `"Invalid date: <iso>"` when the time value
is NaN, otherwise return milliseconds or floored seconds. -/
def handleUtcOffset (y m d h mi s : Int) (tz : String)
    (useMilliseconds : Bool := false) : Except String Int :=
  let isoString := composeIso y m d h mi s tz
  match jsDateFromIso y m d h mi s tz with
  | none => .error ("Invalid date: " ++ isoString)
  | some t => if useMilliseconds then .ok t else .ok (t.fdiv 1000)

instance {ε α : Type} [DecidableEq ε] [DecidableEq α] : DecidableEq (Except ε α) := fun a b =>
  match a, b with
  | .ok x, .ok y => decidable_of_iff (x = y) (by simp)
  | .error x, .error y => decidable_of_iff (x = y) (by simp)
  | .ok _, .error _ => isFalse (by simp)
  | .error _, .ok _ => isFalse (by simp)

/-- Civil wall-clock fields, the library's `CivilDateTime` value object. -/
structure CivilDateTime where
  year : Int
  month : Int
  day : Int
  hour : Int
  minute : Int
  second : Int
deriving DecidableEq, Repr

/-- `MakeFullYear`: ECMAScript `Date.UTC` maps a year argument in 0..99 to
1900 + year. -/
def makeFullYear (y : Int) : Int :=
  if 0 ≤ y ∧ y ≤ 99 then 1900 + y else y

/-- Model of `Date.UTC(y, m0, d, h, mi, s)` (month argument 0-based) in
milliseconds: the month is folded into the year, the day argument adds
`d - 1` days from the first of that month (so out-of-range days roll over
into adjacent months, as `MakeDay` specifies). -/
def dateUTC (y m0 d h mi s : Int) : Int :=
  let yy := makeFullYear y
  let ym := yy + m0.fdiv 12
  let mn := m0.emod 12
  (daysFromCivil ym (mn + 1) 1 + (d - 1)) * 86400000
    + h * 3600000 + mi * 60000 + s * 1000

/-- Civil UTC fields displayed for an epoch-millisecond instant (whole
seconds; used to model the formatter's rendered parts). -/
def msToCivil (t : Int) : CivilDateTime :=
  let s := t.fdiv 1000
  let days := s.fdiv 86400
  let sod := s - days * 86400
  let ymd := civilFromDays days
  { year := ymd.1, month := ymd.2.1, day := ymd.2.2,
    hour := sod.fdiv 3600, minute := (sod.fdiv 60).emod 60, second := sod.emod 60 }

/-- Modelled from the spec: the host's IANA civil-calendar capability
(`Intl.DateTimeFormat` with a `timeZone` option) reduced to the narrow
interface §9 prescribes — the zone's UTC offset, in milliseconds, at a
given absolute instant.  Formatting an instant `t` in the zone displays
the civil fields of `t + offsetAtMs t`. -/
structure IanaZone where
  offsetAtMs : Int → Int

/-- Modelled from the spec: America/New_York in 2024 — UTC-5 (EST), except
UTC-4 (EDT) between the 2024-03-10 and 2024-11-03 transitions (spec §4.4,
§9 and the repository's own test commentary give these offsets). -/
def americaNewYork : IanaZone :=
  { offsetAtMs := fun t =>
      if epochSeconds 2024 3 10 7 0 0 * 1000 ≤ t
          ∧ t < epochSeconds 2024 11 3 6 0 0 * 1000
      then -14400000 else -18000000 }

/-- Modelled from the spec: Asia/Kolkata, a constant UTC+5:30 zone. -/
def asiaKolkata : IanaZone :=
  { offsetAtMs := fun _ => 19800000 }

/-- Modelled from the spec: the excerpt of the host's IANA zone database
covering the zones the specification reasons about; every other identifier
is unrecognized and makes the `Intl.DateTimeFormat` constructor throw. -/
def tzdb (tz : String) : Option IanaZone :=
  if tz == "America/New_York" then some americaNewYork
  else if tz == "Asia/Kolkata" then some asiaKolkata
  else none

/-- `handleIanaTimezone` (src/index.ts lines 117-182): probe the zone,
build `utcDate = Date.UTC(year, month-1, day, hour, minute, second)`,
format it in the zone, rebuild `localDate` from the displayed parts with
`Date.UTC`, apply `offset = utcDate - localDate`, and return the corrected
instant in milliseconds or floored seconds.  An unrecognized zone throws
the composite `Invalid timezone` message wrapping the host's error. -/
def handleIanaTimezone (y m d h mi s : Int) (tz : String)
    (useMilliseconds : Bool := false) : Except String Int :=
  match tzdb tz with
  | none =>
      .error ("Invalid timezone: " ++ tz
        ++ ". Use UTC offset format (e.g., \"+05:30\") or valid IANA timezone name (e.g., \"America/New_York\"). Error: Invalid time zone specified: "
        ++ tz)
  | some zone =>
      let utcDate := dateUTC y (m - 1) d h mi s
      let parts := msToCivil (utcDate + zone.offsetAtMs utcDate)
      let localDate := dateUTC parts.year (parts.month - 1) parts.day
        parts.hour parts.minute parts.second
      let offset := utcDate - localDate
      let correctDate := utcDate + offset
      if useMilliseconds then .ok correctDate else .ok (correctDate.fdiv 1000)

/-- `dateToUnixTime` (src/index.ts lines 45-79): range-validate the five
bounded components in order, then dispatch on the designator's syntax. -/
def dateToUnixTime (year month day hour minute second : Int) (timezone : String)
    (useMilliseconds : Bool := false) : Except String Int :=
  if month < 1 ∨ month > 12 then
    .error ("Invalid month: " ++ toString month ++ ". Must be between 1-12")
  else if day < 1 ∨ day > 31 then
    .error ("Invalid day: " ++ toString day ++ ". Must be between 1-31")
  else if hour < 0 ∨ hour > 23 then
    .error ("Invalid hour: " ++ toString hour ++ ". Must be between 0-23")
  else if minute < 0 ∨ minute > 59 then
    .error ("Invalid minute: " ++ toString minute ++ ". Must be between 0-59")
  else if second < 0 ∨ second > 59 then
    .error ("Invalid second: " ++ toString second ++ ". Must be between 0-59")
  else if isUtcOffsetSyntax timezone then
    handleUtcOffset year month day hour minute second timezone useMilliseconds
  else
    handleIanaTimezone year month day hour minute second timezone useMilliseconds

/-- `DateTimeInput` (src/types.ts lines 5-14); the optional
`useMilliseconds` field is `Option Bool`. -/
structure DateTimeInput where
  year : Int
  month : Int
  day : Int
  hour : Int
  minute : Int
  second : Int
  timezone : String
  useMilliseconds : Option Bool := none
deriving Repr

/-- `dateToUnixTimeFromObject` (src/index.ts lines 201-211): forwards the
seven positional fields — and only those seven — to `dateToUnixTime`, so
the callee's `useMilliseconds` parameter takes its default. -/
def dateToUnixTimeFromObject (input : DateTimeInput) : Except String Int :=
  dateToUnixTime input.year input.month input.day input.hour
    input.minute input.second input.timezone

/-- The decimal digit character for `n mod 10`. -/
def digitChar (n : Nat) : Char := Char.ofNat (48 + n % 10)

/-- Two-digit zero-padded decimal rendering, as characters, of a field
value below 100. -/
def pad2c (n : Nat) : List Char := [digitChar (n / 10), digitChar n]

/-- Three-digit zero-padded decimal rendering of a value below 1000. -/
def pad3c (n : Nat) : List Char :=
  [digitChar (n / 100), digitChar (n / 10), digitChar n]

/-- Four-digit zero-padded decimal rendering of a value below 10000. -/
def pad4c (n : Nat) : List Char :=
  [digitChar (n / 1000), digitChar (n / 100), digitChar (n / 10), digitChar n]

/-- Six-digit zero-padded decimal rendering of a value below 1000000 (the
expanded-year form). -/
def pad6c (n : Nat) : List Char :=
  [digitChar (n / 100000), digitChar (n / 10000), digitChar (n / 1000),
   digitChar (n / 100), digitChar (n / 10), digitChar n]

/-- Characters of the `toISOString` text for time value `ms`, without the
final designator: `YYYY-MM-DDTHH:mm:ss.sss`, with the expanded `±YYYYYY`
year form when the UTC year falls outside 0..9999. -/
def isoChars (ms : Int) : List Char :=
  let sec := ms.fdiv 1000
  let msPart := ms.emod 1000
  let days := sec.fdiv 86400
  let sod := sec - days * 86400
  let ymd := civilFromDays days
  let y := ymd.1
  let yearChars :=
    if 0 ≤ y ∧ y ≤ 9999 then pad4c y.toNat
    else if y < 0 then '-' :: pad6c (-y).toNat
    else '+' :: pad6c y.toNat
  yearChars ++ '-' :: pad2c ymd.2.1.toNat ++ '-' :: pad2c ymd.2.2.toNat
    ++ 'T' :: pad2c (sod.fdiv 3600).toNat
    ++ ':' :: pad2c ((sod.fdiv 60).emod 60).toNat
    ++ ':' :: pad2c (sod.emod 60).toNat ++ '.' :: pad3c msPart.toNat

/-- The ECMAScript `Date.prototype.toISOString` text for an in-range time
value `ms`: the date-and-time characters followed by the `Z` designator. -/
def isoStringOfMs (ms : Int) : String :=
  String.mk (isoChars ms ++ ['Z'])

/-- The `YYYY-MM-DDTHH:mm:ss.sssZ` shape, stated from the spec's words:
exactly 24 characters, decimal digits in every numeric position, the fixed
separators in theirs, and a final `Z`. -/
def isIsoUtcShape (str : String) : Bool :=
  match str.data with
  | [y1, y2, y3, y4, a1, m1, m2, a2, d1, d2, a3, h1, h2, a4, n1, n2, a5,
     s1, s2, a6, f1, f2, f3, a7] =>
      y1.isDigit && y2.isDigit && y3.isDigit && y4.isDigit && a1 == '-'
        && m1.isDigit && m2.isDigit && a2 == '-' && d1.isDigit && d2.isDigit
        && a3 == 'T' && h1.isDigit && h2.isDigit && a4 == ':' && n1.isDigit
        && n2.isDigit && a5 == ':' && s1.isDigit && s2.isDigit && a6 == '.'
        && f1.isDigit && f2.isDigit && f3.isDigit && a7 == 'Z'
  | _ => false

/-- Model of `new Date(ms).toISOString()`: ECMAScript time values are
limited to `|ms| ≤ 8.64e15`; beyond that the Date is invalid and
`toISOString` throws `RangeError: Invalid time value`. -/
def toISOString (ms : Int) : Except String String :=
  if ms < -8640000000000000 ∨ 8640000000000000 < ms then
    .error "Invalid time value"
  else .ok (isoStringOfMs ms)

/-- `unixTimeToIso` (src/index.ts lines 234-236):
`new Date(unixTime * 1000).toISOString()`. -/
def unixTimeToIso (unixTime : Int) : Except String String :=
  toISOString (unixTime * 1000)

/-- True exactly when the call returned a string whose last character is
`'Z'`. -/
def isoLastIsZ : Except String String → Bool
  | .ok s => s.data.getLast? == some 'Z'
  | .error _ => false

/-- A JavaScript number as the validator observes it: a finite value
(rationals cover every finite double) or NaN. -/
inductive JSNum where
  | num (q : ℚ)
  | nan
deriving DecidableEq

/-- JS `<` on numbers: false whenever either side is NaN. -/
def JSNum.ltb : JSNum → JSNum → Bool
  | .num a, .num b => decide (a < b)
  | _, _ => false

/-- JS `>` on numbers: false whenever either side is NaN. -/
def JSNum.gtb : JSNum → JSNum → Bool
  | .num a, .num b => decide (a > b)
  | _, _ => false

/-- The validation error kinds of §7. -/
inductive ValidationErrorKind where
  | invalidMonth | invalidDay | invalidHour | invalidMinute | invalidSecond
deriving DecidableEq, Repr

/-- The two resolvers of §2. -/
inductive ResolverChoice where
  | offsetResolver | namedZoneResolver
deriving DecidableEq, Repr

/-- The validate-then-dispatch prefix of `dateToUnixTime`
(src/index.ts lines 55-78) over general JS numbers: each range check is the
literal pair of order comparisons from the source, and control then reaches
one of the two resolver calls. -/
def validateAndDispatch (month day hour minute second : JSNum) (tz : String) :
    Except ValidationErrorKind ResolverChoice :=
  if month.ltb (.num 1) || month.gtb (.num 12) then .error .invalidMonth
  else if day.ltb (.num 1) || day.gtb (.num 31) then .error .invalidDay
  else if hour.ltb (.num 0) || hour.gtb (.num 23) then .error .invalidHour
  else if minute.ltb (.num 0) || minute.gtb (.num 59) then .error .invalidMinute
  else if second.ltb (.num 0) || second.gtb (.num 59) then .error .invalidSecond
  else if isUtcOffsetSyntax tz then .ok .offsetResolver
  else .ok .namedZoneResolver

/-- The §4.2 classification pattern stated from the spec's words: the
designator's characters are a sign, two digits, a colon, two digits. -/
def SpecFixedOffsetShape (tz : String) : Prop :=
  ∃ c0 d1 d2 d4 d5 : Char, tz.data = [c0, d1, d2, ':', d4, d5]
    ∧ (c0 = '+' ∨ c0 = '-') ∧ d1.isDigit ∧ d2.isDigit ∧ d4.isDigit ∧ d5.isDigit

/-! ### Helper lemmas -/

/-- A designator the ISO parser can read an offset from is classified as
fixed-offset syntax by the dispatcher. -/
theorem parseOffset_isUtcOffsetSyntax {tz : String} {o : Int}
    (h : parseOffset tz = some o) : isUtcOffsetSyntax tz = true := by
  unfold parseOffset at h
  split at h
  · next hz => simp [isUtcOffsetSyntax, hz]
  · next hz =>
    split at h
    · next c0 c1 c2 c3 c4 c5 heq =>
      split at h
      · next hsh =>
        simp [isUtcOffsetSyntax, isOffsetShape, heq, hsh]
      · exact absurd h (by simp)
    · exact absurd h (by simp)

/-- Every offset the ISO parser produces is a whole number of minutes,
hence divisible by 1000 milliseconds. -/
theorem parseOffset_dvd {tz : String} {o : Int}
    (h : parseOffset tz = some o) : (1000 : Int) ∣ o := by
  simp only [parseOffset] at h
  repeat' split at h
  all_goals first
    | (simp only [Option.some.injEq] at h; omega)
    | simp at h

/-- Every `Date.UTC` time value is a whole number of seconds in
milliseconds. -/
theorem dateUTC_dvd (y m0 d h mi s : Int) : (1000 : Int) ∣ dateUTC y m0 d h mi s := by
  refine ⟨(daysFromCivil (makeFullYear y + m0.fdiv 12) (m0.emod 12 + 1) 1 + (d - 1)) * 86400
    + h * 3600 + mi * 60 + s, ?_⟩
  simp only [dateUTC]
  ring

/-- Identifiers the modelled zone database recognizes are not fixed-offset
syntax, so the dispatcher sends them to the named-zone resolver. -/
theorem tzdb_not_offsetSyntax {tz : String} {zone : IanaZone}
    (h : tzdb tz = some zone) : isUtcOffsetSyntax tz = false := by
  unfold tzdb at h
  split at h
  · next hc => rw [show tz = "America/New_York" by simpa using hc]; decide
  · split at h
    · next hc => rw [show tz = "Asia/Kolkata" by simpa using hc]; decide
    · exact absurd h (by simp)

/-- The ISO text of a representable instant ends with the character Z. -/
theorem isoStringOfMs_lastZ (ms : Int) :
    (isoStringOfMs ms).data.getLast? = some 'Z' :=
  List.getLast?_concat _

/-- Every character `digitChar` produces is a decimal digit. -/
theorem digitChar_isDigit (n : Nat) : (digitChar n).isDigit = true := by
  have h : n % 10 < 10 := Nat.mod_lt _ (by norm_num)
  unfold digitChar
  generalize n % 10 = k at h
  interval_cases k <;> decide

/-- Over the epoch-day range of the years 0..9999 the civil year computed
by `civilFromDays` stays within 0..9999. -/
theorem civilFromDays_year_range {z : Int} (h1 : -719528 ≤ z)
    (h2 : z ≤ 2932896) :
    0 ≤ (civilFromDays z).1 ∧ (civilFromDays z).1 ≤ 9999 := by
  simp only [civilFromDays,
    show ∀ a : Int, a.fdiv 146097 = a / 146097 from
      fun a => Int.fdiv_eq_ediv a (by norm_num),
    show ∀ a : Int, a.fdiv 1460 = a / 1460 from
      fun a => Int.fdiv_eq_ediv a (by norm_num),
    show ∀ a : Int, a.fdiv 36524 = a / 36524 from
      fun a => Int.fdiv_eq_ediv a (by norm_num),
    show ∀ a : Int, a.fdiv 146096 = a / 146096 from
      fun a => Int.fdiv_eq_ediv a (by norm_num),
    show ∀ a : Int, a.fdiv 365 = a / 365 from
      fun a => Int.fdiv_eq_ediv a (by norm_num),
    show ∀ a : Int, a.fdiv 4 = a / 4 from
      fun a => Int.fdiv_eq_ediv a (by norm_num),
    show ∀ a : Int, a.fdiv 100 = a / 100 from
      fun a => Int.fdiv_eq_ediv a (by norm_num),
    show ∀ a : Int, a.fdiv 153 = a / 153 from
      fun a => Int.fdiv_eq_ediv a (by norm_num),
    show ∀ a : Int, a.fdiv 5 = a / 5 from
      fun a => Int.fdiv_eq_ediv a (by norm_num)]
  rcases Int.lt_or_le (z + 719468) 0 with hz | hz <;> split_ifs <;> omega

/-- Both precisions of the offset resolver agree up to the factor 1000. -/
theorem handleUtcOffset_scale {y m d h mi s a b : Int} {tz : String}
    (h1 : handleUtcOffset y m d h mi s tz true = .ok a)
    (h2 : handleUtcOffset y m d h mi s tz false = .ok b) : a = b * 1000 := by
  simp only [handleUtcOffset] at h1 h2
  cases hj : jsDateFromIso y m d h mi s tz with
  | none => rw [hj] at h1; simp at h1
  | some t =>
    rw [hj] at h1 h2
    simp only [if_true, Bool.false_eq_true, if_false, Except.ok.injEq] at h1 h2
    obtain ⟨k, hk⟩ : (1000 : Int) ∣ t := by
      simp only [jsDateFromIso] at hj
      split at hj
      · cases ho : parseOffset tz with
        | none => rw [ho] at hj; simp at hj
        | some o =>
          rw [ho] at hj
          simp only [Option.map_some', Option.some.injEq] at hj
          obtain ⟨c, hc⟩ := parseOffset_dvd ho
          exact ⟨epochSeconds y m d h mi s - c, by omega⟩
      · simp at hj
    subst hk
    have hcan : (1000 * k).fdiv 1000 = k :=
      Int.mul_fdiv_cancel_left _ (by norm_num)
    omega

/-- Both precisions of the named-zone resolver agree up to the factor
1000. -/
theorem handleIanaTimezone_scale {y m d h mi s a b : Int} {tz : String}
    (h1 : handleIanaTimezone y m d h mi s tz true = .ok a)
    (h2 : handleIanaTimezone y m d h mi s tz false = .ok b) : a = b * 1000 := by
  simp only [handleIanaTimezone] at h1 h2
  cases hz : tzdb tz with
  | none => rw [hz] at h1; simp at h1
  | some zone =>
    rw [hz] at h1 h2
    simp only [if_true, Bool.false_eq_true, if_false, Except.ok.injEq] at h1 h2
    have d1 := dateUTC_dvd y (m - 1) d h mi s
    set t0 := dateUTC y (m - 1) d h mi s with ht0
    set c := msToCivil (t0 + zone.offsetAtMs t0) with hc
    have d2 := dateUTC_dvd c.year (c.month - 1) c.day c.hour c.minute c.second
    set t1 := dateUTC c.year (c.month - 1) c.day c.hour c.minute c.second with ht1
    obtain ⟨p, hp⟩ := d1
    obtain ⟨q, hq⟩ := d2
    have hsum : t0 + (t0 - t1) = 1000 * (p + (p - q)) := by omega
    rw [hsum] at h1 h2
    have hcan : (1000 * (p + (p - q))).fdiv 1000 = p + (p - q) :=
      Int.mul_fdiv_cancel_left _ (by norm_num)
    omega

/-! ### Claim theorems -/

/-- C3: whenever month ∉ [1,12], or month is valid and day ∉ [1,31], hour
∉ [0,23], minute ∉ [0,59] or second ∉ [0,59], `dateToUnixTime` fails
before either resolver runs — the error does not depend on the timezone
string — with the exact message
`Invalid <field>: <value>. Must be between <lo>-<hi>` for the offending
field; in particular month 13 yields the InvalidMonth message and hour 24
the InvalidHour message. -/
theorem c3_range_validation_rejects (y m d h mi s : Int) (tz : String)
    (msFlag : Bool) :
    ((m < 1 ∨ m > 12) → dateToUnixTime y m d h mi s tz msFlag =
        .error ("Invalid month: " ++ toString m ++ ". Must be between 1-12"))
    ∧ (1 ≤ m → m ≤ 12 → (d < 1 ∨ d > 31) →
        dateToUnixTime y m d h mi s tz msFlag =
        .error ("Invalid day: " ++ toString d ++ ". Must be between 1-31"))
    ∧ (1 ≤ m → m ≤ 12 → 1 ≤ d → d ≤ 31 → (h < 0 ∨ h > 23) →
        dateToUnixTime y m d h mi s tz msFlag =
        .error ("Invalid hour: " ++ toString h ++ ". Must be between 0-23"))
    ∧ (1 ≤ m → m ≤ 12 → 1 ≤ d → d ≤ 31 → 0 ≤ h → h ≤ 23 →
        (mi < 0 ∨ mi > 59) →
        dateToUnixTime y m d h mi s tz msFlag =
        .error ("Invalid minute: " ++ toString mi ++ ". Must be between 0-59"))
    ∧ (1 ≤ m → m ≤ 12 → 1 ≤ d → d ≤ 31 → 0 ≤ h → h ≤ 23 → 0 ≤ mi →
        mi ≤ 59 → (s < 0 ∨ s > 59) →
        dateToUnixTime y m d h mi s tz msFlag =
        .error ("Invalid second: " ++ toString s ++ ". Must be between 0-59")) := by
  refine ⟨fun hv => ?_, fun h1 h2 hv => ?_, fun h1 h2 h3 h4 hv => ?_,
    fun h1 h2 h3 h4 h5 h6 hv => ?_, fun h1 h2 h3 h4 h5 h6 h7 h8 hv => ?_⟩
  · simp only [dateToUnixTime]; rw [if_pos hv]
  · simp only [dateToUnixTime]; rw [if_neg (by omega), if_pos hv]
  · simp only [dateToUnixTime]; rw [if_neg (by omega), if_neg (by omega), if_pos hv]
  · simp only [dateToUnixTime]
    rw [if_neg (by omega), if_neg (by omega), if_neg (by omega), if_pos hv]
  · simp only [dateToUnixTime]
    rw [if_neg (by omega), if_neg (by omega), if_neg (by omega),
      if_neg (by omega), if_pos hv]

/-- Witness for C3 at the claim's own examples: month 13 and hour 24. -/
theorem c3_range_validation_rejects_witness :
    dateToUnixTime 2024 13 1 0 0 0 "Z" =
      .error "Invalid month: 13. Must be between 1-12"
    ∧ dateToUnixTime 2024 1 1 24 0 0 "Z" =
      .error "Invalid hour: 24. Must be between 0-23" :=
  ⟨(c3_range_validation_rejects 2024 13 1 0 0 0 "Z" false).1 (by decide),
   (c3_range_validation_rejects 2024 1 1 24 0 0 "Z" false).2.2.1
     (by decide) (by decide) (by decide) (by decide) (by decide)⟩

/-- C4 (failing input): the object adapter forwards only the seven
positional fields, so a record carrying `useMilliseconds := true` still
comes back in seconds while the positional call with the flag set returns
milliseconds. -/
theorem c4_object_adapter_drops_milliseconds :
    dateToUnixTimeFromObject
        { year := 2024, month := 12, day := 4, hour := 12, minute := 30,
          second := 0, timezone := "Z", useMilliseconds := some true }
      = .ok 1733315400
    ∧ dateToUnixTime 2024 12 4 12 30 0 "Z" true = .ok 1733315400000 :=
  ⟨by decide, by decide⟩

/-- C10: the validator performs only the order comparisons of the source —
no integrality check — so any component assignment in which every value
fails both comparisons of its range check (in-range values, but also
non-integers such as 1.5 and NaN, which satisfy neither `< lo` nor `> hi`)
raises no range error and control reaches a resolver. -/
theorem c10_validator_is_order_comparisons_only
    (mo d h mi s : JSNum) (tz : String)
    (hmo : mo.ltb (.num 1) = false ∧ mo.gtb (.num 12) = false)
    (hd : d.ltb (.num 1) = false ∧ d.gtb (.num 31) = false)
    (hh : h.ltb (.num 0) = false ∧ h.gtb (.num 23) = false)
    (hmi : mi.ltb (.num 0) = false ∧ mi.gtb (.num 59) = false)
    (hs : s.ltb (.num 0) = false ∧ s.gtb (.num 59) = false) :
    validateAndDispatch mo d h mi s tz =
      .ok (if isUtcOffsetSyntax tz then .offsetResolver else .namedZoneResolver) := by
  simp only [validateAndDispatch, hmo.1, hmo.2, hd.1, hd.2, hh.1, hh.2,
    hmi.1, hmi.2, hs.1, hs.2, Bool.or_self, Bool.false_eq_true, if_false]
  split <;> rfl

/-- Witness for C10: month 1.5 and a NaN day pass validation and are
dispatched to the offset resolver for the designator `"Z"`. -/
theorem c10_validator_is_order_comparisons_only_witness :
    JSNum.ltb (.num (mkRat 3 2)) (.num 1) = false
    ∧ JSNum.gtb (.num (mkRat 3 2)) (.num 12) = false
    ∧ JSNum.ltb .nan (.num 1) = false
    ∧ validateAndDispatch (.num (mkRat 3 2)) .nan (.num 0) (.num 0) (.num 0) "Z"
        = .ok .offsetResolver :=
  ⟨by decide, by decide, by decide,
    c10_validator_is_order_comparisons_only (.num (mkRat 3 2)) .nan
      (.num 0) (.num 0) (.num 0) "Z"
      ⟨by decide, by decide⟩ ⟨by decide, by decide⟩ ⟨by decide, by decide⟩
      ⟨by decide, by decide⟩ ⟨by decide, by decide⟩⟩

/-- C1: on the fixed-offset path, whenever the call succeeds the returned
value is the instant `UTC(year,month,day,hour,minute,second)` minus the
designator's offset `o`, in floored seconds (exact milliseconds when the
flag is set); in particular 2024-12-04 12:30 Z, 18:00 +05:30 and
07:30 -05:00 all map to 1733315400. -/
theorem c1_offset_instant (y m d h mi s o v : Int) (tz : String)
    (msFlag : Bool)
    (hm : 1 ≤ m ∧ m ≤ 12) (hd : 1 ≤ d ∧ d ≤ 31) (hh : 0 ≤ h ∧ h ≤ 23)
    (hmi : 0 ≤ mi ∧ mi ≤ 59) (hs : 0 ≤ s ∧ s ≤ 59)
    (hoff : parseOffset tz = some o)
    (hok : dateToUnixTime y m d h mi s tz msFlag = .ok v) :
    (v = if msFlag then epochSeconds y m d h mi s * 1000 - o
         else (epochSeconds y m d h mi s * 1000 - o).fdiv 1000)
    ∧ dateToUnixTime 2024 12 4 12 30 0 "Z" = .ok 1733315400
    ∧ dateToUnixTime 2024 12 4 18 0 0 "+05:30" = .ok 1733315400
    ∧ dateToUnixTime 2024 12 4 7 30 0 "-05:00" = .ok 1733315400 := by
  refine ⟨?_, by decide, by decide, by decide⟩
  simp only [dateToUnixTime] at hok
  rw [if_neg (by omega), if_neg (by omega), if_neg (by omega),
    if_neg (by omega), if_neg (by omega),
    if_pos (parseOffset_isUtcOffsetSyntax hoff)] at hok
  simp only [handleUtcOffset] at hok
  cases hj : jsDateFromIso y m d h mi s tz with
  | none => rw [hj] at hok; simp at hok
  | some t =>
    rw [hj] at hok
    have ht : t = epochSeconds y m d h mi s * 1000 - o := by
      simp only [jsDateFromIso] at hj
      split at hj
      · rw [hoff] at hj
        simp only [Option.map_some', Option.some.injEq] at hj
        exact hj.symm
      · simp at hj
    cases msFlag with
    | false =>
      simp only [Bool.false_eq_true, if_false, Except.ok.injEq] at hok ⊢
      rw [← hok, ht]
    | true =>
      simp only [if_true, Except.ok.injEq] at hok ⊢
      rw [← hok, ht]

/-- Witness for C1 at 2024-12-04T12:30:00Z. -/
theorem c1_offset_instant_witness :
    ((1733315400 : Int) =
      if false then epochSeconds 2024 12 4 12 30 0 * 1000 - 0
      else (epochSeconds 2024 12 4 12 30 0 * 1000 - 0).fdiv 1000)
    ∧ dateToUnixTime 2024 12 4 12 30 0 "Z" = .ok 1733315400
    ∧ dateToUnixTime 2024 12 4 18 0 0 "+05:30" = .ok 1733315400
    ∧ dateToUnixTime 2024 12 4 7 30 0 "-05:00" = .ok 1733315400 :=
  c1_offset_instant 2024 12 4 12 30 0 0 1733315400 "Z" false
    (by decide) (by decide) (by decide) (by decide) (by decide)
    (by decide) (by decide)

/-- C6: the dispatcher routes to the offset resolver exactly when the
designator is `"Z"` or has the sign-two-digits-colon-two-digits shape; the
classification is purely syntactic, so `"+99:99"` takes the offset path
and fails later as an invalid date, not as an invalid timezone. -/
theorem c6_designator_classification (tz : String) (y m d h mi s : Int)
    (msFlag : Bool)
    (hm : 1 ≤ m ∧ m ≤ 12) (hd : 1 ≤ d ∧ d ≤ 31) (hh : 0 ≤ h ∧ h ≤ 23)
    (hmi : 0 ≤ mi ∧ mi ≤ 59) (hs : 0 ≤ s ∧ s ≤ 59) :
    (isUtcOffsetSyntax tz = true ↔ tz = "Z" ∨ SpecFixedOffsetShape tz)
    ∧ (dateToUnixTime y m d h mi s tz msFlag =
        if isUtcOffsetSyntax tz then handleUtcOffset y m d h mi s tz msFlag
        else handleIanaTimezone y m d h mi s tz msFlag)
    ∧ isUtcOffsetSyntax "+99:99" = true
    ∧ dateToUnixTime 2024 1 1 0 0 0 "+99:99" =
        .error "Invalid date: 2024-01-01T00:00:00+99:99" := by
  refine ⟨⟨?_, ?_⟩, ?_, by decide, by decide⟩
  · intro hcl
    simp only [isUtcOffsetSyntax, Bool.or_eq_true, beq_iff_eq] at hcl
    rcases hcl with hz | hsh
    · exact .inl hz
    · refine .inr ?_
      unfold isOffsetShape at hsh
      split at hsh
      · next c0 c1 c2 c3 c4 c5 heq =>
        simp only [Bool.and_eq_true, Bool.or_eq_true, beq_iff_eq] at hsh
        obtain ⟨⟨⟨⟨⟨hsign, h1⟩, h2⟩, hc⟩, h4⟩, h5⟩ := hsh
        exact ⟨c0, c1, c2, c4, c5, by rw [heq, hc], hsign, h1, h2, h4, h5⟩
      · exact absurd hsh (by simp)
  · intro hcl
    rcases hcl with hz | ⟨c0, d1, d2, d4, d5, heq, hsign, h1, h2, h4, h5⟩
    · subst hz; decide
    · simp only [isUtcOffsetSyntax, isOffsetShape, heq, Bool.or_eq_true,
        Bool.and_eq_true, beq_iff_eq]
      right
      refine ⟨⟨⟨⟨⟨?_, h1⟩, h2⟩, trivial⟩, h4⟩, h5⟩
      rcases hsign with hc | hc <;> simp [hc]
  · simp only [dateToUnixTime]
    rw [if_neg (by omega), if_neg (by omega), if_neg (by omega),
      if_neg (by omega), if_neg (by omega)]

/-- Witness for C6 at the designator "+05:30". -/
theorem c6_designator_classification_witness :
    (isUtcOffsetSyntax "+05:30" = true ↔
      "+05:30" = "Z" ∨ SpecFixedOffsetShape "+05:30")
    ∧ (dateToUnixTime 2024 1 1 0 0 0 "+05:30" false =
        if isUtcOffsetSyntax "+05:30" then
          handleUtcOffset 2024 1 1 0 0 0 "+05:30" false
        else handleIanaTimezone 2024 1 1 0 0 0 "+05:30" false)
    ∧ isUtcOffsetSyntax "+99:99" = true
    ∧ dateToUnixTime 2024 1 1 0 0 0 "+99:99" =
        .error "Invalid date: 2024-01-01T00:00:00+99:99" :=
  c6_designator_classification "+05:30" 2024 1 1 0 0 0 false
    (by decide) (by decide) (by decide) (by decide) (by decide)

/-- C7: on the fixed-offset path, range-valid components that do not form
a real calendar date (day past the month's end), or a designator whose
composed offset the calendar engine cannot parse, make the call fail with
the message `Invalid date: <composed-string>`. -/
theorem c7_offset_invalid_date (y m d h mi s : Int) (tz : String)
    (msFlag : Bool)
    (hm : 1 ≤ m ∧ m ≤ 12) (hd : 1 ≤ d ∧ d ≤ 31) (hh : 0 ≤ h ∧ h ≤ 23)
    (hmi : 0 ≤ mi ∧ mi ≤ 59) (hs : 0 ≤ s ∧ s ≤ 59)
    (hsy : isUtcOffsetSyntax tz = true)
    (hbad : daysInMonth y m < d ∨ parseOffset tz = none) :
    dateToUnixTime y m d h mi s tz msFlag =
      .error ("Invalid date: " ++ composeIso y m d h mi s tz) := by
  simp only [dateToUnixTime]
  rw [if_neg (by omega), if_neg (by omega), if_neg (by omega),
    if_neg (by omega), if_neg (by omega), if_pos hsy]
  simp only [handleUtcOffset]
  have hj : jsDateFromIso y m d h mi s tz = none := by
    simp only [jsDateFromIso]
    rcases hbad with hday | hoff
    · rw [if_neg]
      intro hc
      omega
    · split
      · rw [hoff]; rfl
      · rfl
  rw [hj]

/-- Witness for C7 at February 30. -/
theorem c7_offset_invalid_date_witness :
    dateToUnixTime 2024 2 30 0 0 0 "Z" =
      .error "Invalid date: 2024-02-30T00:00:00Z" :=
  c7_offset_invalid_date 2024 2 30 0 0 0 "Z" false
    (by decide) (by decide) (by decide) (by decide) (by decide) (by decide)
    (.inl (by decide))

/-- C2: on the named-zone path the result is computed by the single-sample
algorithm — `T0 = UTC(components)`, `CivilDateTime' = fields the zone
displays at T0`, `T1 = UTC(CivilDateTime')`, `delta = T0 - T1`, result
`T0 + delta` (floored seconds, or milliseconds under the flag); in
particular 07:30 America/New_York and 18:00 Asia/Kolkata on 2024-12-04
both map to 1733315400. -/
theorem c2_named_zone_single_sample (y m d h mi s : Int) (tz : String)
    (msFlag : Bool) (zone : IanaZone)
    (hm : 1 ≤ m ∧ m ≤ 12) (hd : 1 ≤ d ∧ d ≤ 31) (hh : 0 ≤ h ∧ h ≤ 23)
    (hmi : 0 ≤ mi ∧ mi ≤ 59) (hs : 0 ≤ s ∧ s ≤ 59)
    (hz : tzdb tz = some zone) :
    (dateToUnixTime y m d h mi s tz msFlag =
      (let t0 := dateUTC y (m - 1) d h mi s
       let c := msToCivil (t0 + zone.offsetAtMs t0)
       let t1 := dateUTC c.year (c.month - 1) c.day c.hour c.minute c.second
       let delta := t0 - t1
       if msFlag then .ok (t0 + delta) else .ok ((t0 + delta).fdiv 1000)))
    ∧ dateToUnixTime 2024 12 4 7 30 0 "America/New_York" = .ok 1733315400
    ∧ dateToUnixTime 2024 12 4 18 0 0 "Asia/Kolkata" = .ok 1733315400 := by
  refine ⟨?_, by decide, by decide⟩
  simp only [dateToUnixTime]
  rw [if_neg (by omega), if_neg (by omega), if_neg (by omega),
    if_neg (by omega), if_neg (by omega),
    if_neg (by simp [tzdb_not_offsetSyntax hz])]
  simp only [handleIanaTimezone, hz]

/-- Witness for C2 at 07:30 America/New_York. -/
theorem c2_named_zone_single_sample_witness :
    (dateToUnixTime 2024 12 4 7 30 0 "America/New_York" false =
      (let t0 := dateUTC 2024 (12 - 1) 4 7 30 0
       let c := msToCivil (t0 + americaNewYork.offsetAtMs t0)
       let t1 := dateUTC c.year (c.month - 1) c.day c.hour c.minute c.second
       let delta := t0 - t1
       if false then .ok (t0 + delta) else .ok ((t0 + delta).fdiv 1000)))
    ∧ dateToUnixTime 2024 12 4 7 30 0 "America/New_York" = .ok 1733315400
    ∧ dateToUnixTime 2024 12 4 18 0 0 "Asia/Kolkata" = .ok 1733315400 :=
  c2_named_zone_single_sample 2024 12 4 7 30 0 "America/New_York" false
    americaNewYork (by decide) (by decide) (by decide) (by decide) (by decide)
    rfl

/-- C8: the named-zone path never cross-validates day-of-month: for a
recognized zone, range-valid components past the month's end still
succeed, the `UTC(year, month-1, day, …)` construction rolling the date
into the next month — April 31 gives the same instant as May 1. -/
theorem c8_named_zone_rolls_over (y m d h mi s : Int) (tz : String)
    (msFlag : Bool) (zone : IanaZone)
    (hm : 1 ≤ m ∧ m ≤ 12) (hd : 1 ≤ d ∧ d ≤ 31) (hh : 0 ≤ h ∧ h ≤ 23)
    (hmi : 0 ≤ mi ∧ mi ≤ 59) (hs : 0 ≤ s ∧ s ≤ 59)
    (hz : tzdb tz = some zone) (_hbad : daysInMonth y m < d) :
    (dateToUnixTime y m d h mi s tz msFlag).isOk = true
    ∧ dateToUnixTime 2024 4 31 12 0 0 "America/New_York" =
        dateToUnixTime 2024 5 1 12 0 0 "America/New_York"
    ∧ dateToUnixTime 2024 4 31 12 0 0 "America/New_York" = .ok 1714579200 := by
  refine ⟨?_, by decide, by decide⟩
  simp only [dateToUnixTime]
  rw [if_neg (by omega), if_neg (by omega), if_neg (by omega),
    if_neg (by omega), if_neg (by omega),
    if_neg (by simp [tzdb_not_offsetSyntax hz])]
  simp only [handleIanaTimezone, hz]
  cases msFlag <;> rfl

/-- Witness for C8 at April 31 in America/New_York. -/
theorem c8_named_zone_rolls_over_witness :
    (dateToUnixTime 2024 4 31 12 0 0 "America/New_York" false).isOk = true
    ∧ dateToUnixTime 2024 4 31 12 0 0 "America/New_York" =
        dateToUnixTime 2024 5 1 12 0 0 "America/New_York"
    ∧ dateToUnixTime 2024 4 31 12 0 0 "America/New_York" = .ok 1714579200 :=
  c8_named_zone_rolls_over 2024 4 31 12 0 0 "America/New_York" false
    americaNewYork (by decide) (by decide) (by decide) (by decide) (by decide)
    rfl (by decide)

/-- C9: whenever the same components-and-designator call succeeds with and
without the milliseconds flag, the milliseconds result is exactly one
thousand times the floored-seconds result. -/
theorem c9_millisecond_scaling (y m d h mi s a b : Int) (tz : String)
    (h1 : dateToUnixTime y m d h mi s tz true = .ok a)
    (h2 : dateToUnixTime y m d h mi s tz false = .ok b) :
    a = b * 1000 := by
  simp only [dateToUnixTime] at h1 h2
  by_cases c1 : m < 1 ∨ m > 12
  · rw [if_pos c1] at h1; exact absurd h1 (by simp)
  rw [if_neg c1] at h1 h2
  by_cases c2 : d < 1 ∨ d > 31
  · rw [if_pos c2] at h1; exact absurd h1 (by simp)
  rw [if_neg c2] at h1 h2
  by_cases c3 : h < 0 ∨ h > 23
  · rw [if_pos c3] at h1; exact absurd h1 (by simp)
  rw [if_neg c3] at h1 h2
  by_cases c4 : mi < 0 ∨ mi > 59
  · rw [if_pos c4] at h1; exact absurd h1 (by simp)
  rw [if_neg c4] at h1 h2
  by_cases c5 : s < 0 ∨ s > 59
  · rw [if_pos c5] at h1; exact absurd h1 (by simp)
  rw [if_neg c5] at h1 h2
  by_cases c6 : isUtcOffsetSyntax tz = true
  · rw [if_pos c6] at h1 h2
    exact handleUtcOffset_scale h1 h2
  · rw [if_neg c6] at h1 h2
    exact handleIanaTimezone_scale h1 h2

/-- Witness for C9 at 2024-12-04T12:30:00Z. -/
theorem c9_millisecond_scaling_witness :
    dateToUnixTime 2024 12 4 12 30 0 "Z" true = .ok 1733315400000
    ∧ (1733315400000 : Int) = 1733315400 * 1000 :=
  ⟨by decide,
    c9_millisecond_scaling 2024 12 4 12 30 0 1733315400000 1733315400 "Z"
      (by decide) (by decide)⟩

/-- C5 (counterexamples to the claim as stated): `unixTimeToIso` does fail
for a finite integer — one second past the largest representable ECMAScript
time value makes it throw — and at a representable instant of year 10000 it
succeeds but renders the expanded `+010000` year form, which is not the
`YYYY-MM-DDTHH:mm:ss.sssZ` format. -/
theorem c5_unixTimeToIso_counterexample :
    unixTimeToIso 8640000000001 = .error "Invalid time value"
    ∧ unixTimeToIso 253402300800 = .ok "+010000-01-01T00:00:00.000Z"
    ∧ isIsoUtcShape "+010000-01-01T00:00:00.000Z" = false :=
  ⟨by decide, by decide, by decide⟩

/-- C5 (amended): throughout the years 0..9999 — that is, for every `t`
with `-62167219200 ≤ t ≤ 253402300799` — `unixTimeToIso` succeeds,
returns exactly the `toISOString` rendering of the instant `t * 1000` ms,
that output has the `YYYY-MM-DDTHH:mm:ss.sssZ` format and so ends in
`"Z"`, and `unixTimeToIso 1704067200` is `"2024-01-01T00:00:00.000Z"`. -/
theorem c5_unixTimeToIso_in_range (t : Int)
    (hlo : -62167219200 ≤ t) (hhi : t ≤ 253402300799) :
    unixTimeToIso t = .ok (isoStringOfMs (t * 1000))
    ∧ isIsoUtcShape (isoStringOfMs (t * 1000)) = true
    ∧ isoLastIsZ (unixTimeToIso t) = true
    ∧ unixTimeToIso 1704067200 = .ok "2024-01-01T00:00:00.000Z" := by
  have hok : unixTimeToIso t = .ok (isoStringOfMs (t * 1000)) := by
    have hcond :
        ¬(t * 1000 < -8640000000000000 ∨ 8640000000000000 < t * 1000) := by
      push_neg
      omega
    simp only [unixTimeToIso, toISOString, if_neg hcond]
  have hsec : (t * 1000).fdiv 1000 = t := Int.mul_fdiv_cancel _ (by norm_num)
  have hshape : isIsoUtcShape (isoStringOfMs (t * 1000)) = true := by
    have hdays : -719528 ≤ t.fdiv 86400 ∧ t.fdiv 86400 ≤ 2932896 := by
      rw [Int.fdiv_eq_ediv _ (by norm_num)]
      omega
    obtain ⟨hy0, hy1⟩ := civilFromDays_year_range hdays.1 hdays.2
    simp only [isoStringOfMs, isoChars, hsec]
    rw [if_pos (⟨hy0, hy1⟩ : _ ∧ _)]
    simp [isIsoUtcShape, pad4c, pad2c, pad3c, digitChar_isDigit]
  refine ⟨hok, hshape, ?_, by decide⟩
  rw [hok]
  simp only [isoLastIsZ, isoStringOfMs_lastZ]
  rfl

/-- Witness for C5 at t = 1704067200. -/
theorem c5_unixTimeToIso_in_range_witness :
    unixTimeToIso 1704067200 = .ok (isoStringOfMs (1704067200 * 1000))
    ∧ isIsoUtcShape (isoStringOfMs (1704067200 * 1000)) = true
    ∧ isoLastIsZ (unixTimeToIso 1704067200) = true
    ∧ unixTimeToIso 1704067200 = .ok "2024-01-01T00:00:00.000Z" :=
  c5_unixTimeToIso_in_range 1704067200 (by decide) (by decide)

end UnixTimeConverter
